import Mathlib

/-!
Shallow embedding of the policy/claim lifecycle API of
`src/insurance_app/routers/routers_policy.py`.

The Python module keeps two process-wide dictionaries, `policies_db` and
`claims_db`, keyed by generated string ids, and exposes CRUD endpoints on
them.  We model each dictionary as a list of records (dictionary assignment
`db[k] = v` becomes `dbSet`, which overwrites an existing entry with the
same id and otherwise appends), monetary amounts (Python floats compared
with `>`/`==` on exact decimal inputs) as rationals, `datetime.utcnow()`
timestamps as opaque `Nat` ticks supplied by the caller, and the randomly
generated ids (`generate_policy_id`, `generate_claim_id`) as `String`
arguments supplied by the caller.  Handlers that raise `HTTPException`
become `Except ApiError` computations; `400 / 404 / 409` are the spec's
`InvalidInput / NotFound / Conflict`.
-/

namespace InsuranceApp

/-- Python `datetime.date`: a year/month/day triple.  Python compares dates
field-lexicographically; `Date.blt` and `Date.ble` reproduce that order. -/
structure Date where
  year : Nat
  month : Nat
  day : Nat
deriving DecidableEq, Repr

/-- Strict order on dates, lexicographic on (year, month, day), as Python
`date.__lt__`. -/
def Date.blt (a b : Date) : Bool :=
  if a.year ≠ b.year then decide (a.year < b.year)
  else if a.month ≠ b.month then decide (a.month < b.month)
  else decide (a.day < b.day)

/-- Non-strict order on dates, as Python `date.__le__`. -/
def Date.ble (a b : Date) : Bool :=
  a.blt b || decide (a = b)

/-- Python `a >= b` on dates. -/
def Date.bge (a b : Date) : Bool :=
  Date.ble b a

/-- Gregorian leap-year test (as `calendar.isleap`, used by
`dateutil.relativedelta` day clamping). -/
def isLeap (y : Nat) : Bool :=
  y % 4 == 0 && (y % 100 != 0 || y % 400 == 0)

/-- Number of days in a month of a given year. -/
def daysInMonth (y m : Nat) : Nat :=
  if m = 2 then (if isLeap y then 29 else 28)
  else if m = 4 ∨ m = 6 ∨ m = 9 ∨ m = 11 then 30
  else 31

/-- `date + relativedelta(months=n)`: advance the month by `n`, carrying
into the year, and clamp the day to the last valid day of the target
month (dateutil semantics). -/
def Date.addMonths (d : Date) (n : Nat) : Date :=
  let m0 := d.month - 1 + n
  let y := d.year + m0 / 12
  let m := m0 % 12 + 1
  ⟨y, m, min d.day (daysInMonth y m)⟩

/-- The HTTP error statuses raised by the handlers:
400 `InvalidInput`, 404 `NotFound`, 409 `Conflict`. -/
inductive ApiError where
  | invalidInput
  | notFound
  | conflict
deriving DecidableEq, Repr

/-- A stored policy record (`policy_data` in `create_policy`): the fields
written into `policies_db`. -/
structure Policy where
  id : String
  policy_number : String
  policy_type : String
  customer_id : String
  premium_amount : ℚ
  coverage_amount : ℚ
  start_date : Date
  end_date : Date
  status : String
  created_at : Nat
  updated_at : Nat
deriving DecidableEq, Repr

/-- A stored claim record (`claim_data` in `create_claim`): the fields
written into `claims_db`. -/
structure Claim where
  claim_id : String
  policy_id : String
  claim_amount : ℚ
  status : String
  submitted_at : Nat
  incident_date : Date
  description : String
  claim_type : String
deriving DecidableEq, Repr

/-- Request body `PolicyCreate` (= `PolicyBase`).  The `status` field has
pydantic default "active" but may be supplied by the client. -/
structure PolicyCreate where
  policy_number : String
  policy_type : String
  customer_id : String
  premium_amount : ℚ
  coverage_amount : ℚ
  start_date : Date
  end_date : Date
  status : String := "active"
deriving DecidableEq, Repr

/-- Pydantic field validation on `PolicyBase`: `premium_amount` and
`coverage_amount` carry `gt=0`; FastAPI rejects a request violating them
before the handler runs. -/
def PolicyCreate.Valid (r : PolicyCreate) : Prop :=
  0 < r.premium_amount ∧ 0 < r.coverage_amount

/-- Request body `PolicyUpdate`, restricted to requests whose supplied
fields carry non-null values: an absent field is `none` (dropped by
pydantic `exclude_unset`), a supplied field is `some v`.  The wire format
additionally admits an explicit JSON null for a supplied field (pydantic
skips `gt=0` for `None` on an `Optional` field and `exclude_unset=True`
keeps an explicitly-set null); that shape is modelled by `PolicyUpdateRaw`
and `update_policy_raw` below. -/
structure PolicyUpdate where
  policy_type : Option String := none
  premium_amount : Option ℚ := none
  coverage_amount : Option ℚ := none
  end_date : Option Date := none
  status : Option String := none
deriving DecidableEq, Repr

/-- Request body `ClaimRequest`.  (Its `policy_id` field is present in the
schema but the handler uses the path parameter instead.) -/
structure ClaimRequest where
  policy_id : String
  claim_amount : ℚ
  incident_date : Date
  description : String
  claim_type : String
deriving DecidableEq, Repr

/-- The policy store `policies_db`, and the claim store `claims_db`. -/
abbrev PolicyDb := List Policy
abbrev ClaimDb := List Claim

/-- Dictionary lookup `policies_db[policy_id]` / membership test. -/
def dbFind (db : PolicyDb) (pid : String) : Option Policy :=
  db.find? (fun p => p.id == pid)

/-- Dictionary assignment `policies_db[p.id] = p`: overwrite the entry with
that id when present, otherwise append. -/
def dbSet (db : PolicyDb) (p : Policy) : PolicyDb :=
  if db.any (fun q => q.id == p.id) then
    db.map (fun q => if q.id == p.id then p else q)
  else
    db ++ [p]

/-- Dictionary assignment `claims_db[c.claim_id] = c`. -/
def claimDbSet (db : ClaimDb) (c : Claim) : ClaimDb :=
  if db.any (fun q => q.claim_id == c.claim_id) then
    db.map (fun q => if q.claim_id == c.claim_id then c else q)
  else
    db ++ [c]

/-- `validate_policy_exists`: 404 when the id is not a key of
`policies_db`, otherwise the stored record. -/
def validate_policy_exists (db : PolicyDb) (pid : String) : Except ApiError Policy :=
  match dbFind db pid with
  | none => .error .notFound
  | some p => .ok p

/-- `create_policy`: reject `start_date >= end_date` with 400, reject a
duplicate `policy_number` with 409, otherwise store the new record and
return it together with the updated store.  `genId` stands for the
`generate_policy_id()` result and `now` for `datetime.utcnow()`. -/
def create_policy (db : PolicyDb) (policy : PolicyCreate) (genId : String)
    (now : Nat) : Except ApiError (Policy × PolicyDb) :=
  if Date.bge policy.start_date policy.end_date then
    .error .invalidInput
  else
    let policy_data : Policy :=
      { id := genId
        policy_number := policy.policy_number
        policy_type := policy.policy_type
        customer_id := policy.customer_id
        premium_amount := policy.premium_amount
        coverage_amount := policy.coverage_amount
        start_date := policy.start_date
        end_date := policy.end_date
        status := policy.status
        created_at := now
        updated_at := now }
    if db.any (fun q => q.policy_number == policy.policy_number) then
      .error .conflict
    else
      .ok (policy_data, dbSet db policy_data)

/-- `update_policy`: 404 when absent; when `end_date` is supplied,
re-validate it against the *stored* `start_date` (400 when
`end_date <= start_date`); then overwrite exactly the supplied fields and
refresh `updated_at`.  Faithful for requests without explicitly-null
fields; `update_policy_raw` covers the full wire format. -/
def update_policy (db : PolicyDb) (pid : String) (upd : PolicyUpdate)
    (now : Nat) : Except ApiError (Policy × PolicyDb) :=
  match validate_policy_exists db pid with
  | .error e => .error e
  | .ok policy_data =>
    if (upd.end_date.map (fun e => Date.ble e policy_data.start_date)).getD false then
      .error .invalidInput
    else
      let policy_data' : Policy :=
        { policy_data with
          policy_type := upd.policy_type.getD policy_data.policy_type
          premium_amount := upd.premium_amount.getD policy_data.premium_amount
          coverage_amount := upd.coverage_amount.getD policy_data.coverage_amount
          end_date := upd.end_date.getD policy_data.end_date
          status := upd.status.getD policy_data.status
          updated_at := now }
      .ok (policy_data', dbSet db policy_data')

/-- Wire-level `PolicyUpdate` request body.  Pydantic distinguishes a field
absent from the request (outer `none`, dropped by `exclude_unset=True`)
from a field explicitly set to JSON null (`some none`), which
`exclude_unset=True` keeps in `update_data`. -/
structure PolicyUpdateRaw where
  policy_type : Option (Option String) := none
  premium_amount : Option (Option ℚ) := none
  coverage_amount : Option (Option ℚ) := none
  end_date : Option (Option Date) := none
  status : Option (Option String) := none
deriving DecidableEq, Repr

/-- Pydantic field validation on the wire-level `PolicyUpdate`: `gt=0` on
`premium_amount` and `coverage_amount` is enforced only when a number is
supplied; an explicit null passes validation. -/
def PolicyUpdateRaw.Valid (u : PolicyUpdateRaw) : Prop :=
  (∀ x, u.premium_amount = some (some x) → 0 < x) ∧
  (∀ x, u.coverage_amount = some (some x) → 0 < x)

/-- A `policies_db` entry as the dict actually stores it: the five fields
writable through `update_policy` can hold `None` after an explicitly-null
update was applied by the mutation loop. -/
structure StoredPolicy where
  id : String
  policy_number : String
  policy_type : Option String
  customer_id : String
  premium_amount : Option ℚ
  coverage_amount : Option ℚ
  start_date : Date
  end_date : Option Date
  status : Option String
  created_at : Nat
  updated_at : Nat
deriving DecidableEq, Repr

/-- A well-typed policy record viewed as a stored dict entry (no nulls). -/
def Policy.toStored (p : Policy) : StoredPolicy :=
  { id := p.id, policy_number := p.policy_number
    policy_type := some p.policy_type, customer_id := p.customer_id
    premium_amount := some p.premium_amount
    coverage_amount := some p.coverage_amount, start_date := p.start_date
    end_date := some p.end_date, status := some p.status
    created_at := p.created_at, updated_at := p.updated_at }

/-- Dictionary lookup on the raw store. -/
def rawFind (db : List StoredPolicy) (pid : String) : Option StoredPolicy :=
  db.find? (fun p => p.id == pid)

/-- Dictionary assignment on the raw store. -/
def rawSet (db : List StoredPolicy) (p : StoredPolicy) : List StoredPolicy :=
  if db.any (fun q => q.id == p.id) then
    db.map (fun q => if q.id == p.id then p else q)
  else
    db ++ [p]

/-- HTTP outcome of the wire-level update handler: a 200 with the response
body, a 4xx raised before any write, or an unhandled exception (HTTP 500). -/
inductive UpdateOutcome where
  | ok (p : StoredPolicy)
  | failed (e : ApiError)
  | serverError
deriving DecidableEq, Repr

/-- The mutation loop and response of `update_policy`: overwrite every
field present in `update_data` (writing `None` when the field was
explicitly null), refresh `updated_at`, store the record, then build
`PolicyResponse(**policy_data)` — which raises a validation error (HTTP
500) when any required field is `None`, after the store was already
mutated. -/
def applyRawUpdate (db : List StoredPolicy) (policy_data : StoredPolicy)
    (upd : PolicyUpdateRaw) (now : Nat) : UpdateOutcome × List StoredPolicy :=
  let policy_data' : StoredPolicy :=
    { policy_data with
      policy_type := upd.policy_type.getD policy_data.policy_type
      premium_amount := upd.premium_amount.getD policy_data.premium_amount
      coverage_amount := upd.coverage_amount.getD policy_data.coverage_amount
      end_date := upd.end_date.getD policy_data.end_date
      status := upd.status.getD policy_data.status
      updated_at := now }
  let db' := rawSet db policy_data'
  if policy_data'.policy_type.isSome && policy_data'.premium_amount.isSome &&
      policy_data'.coverage_amount.isSome && policy_data'.end_date.isSome &&
      policy_data'.status.isSome then
    (.ok policy_data', db')
  else
    (.serverError, db')

/-- `update_policy` on the full wire format: 404 when absent; when
`end_date` is present in `update_data`, the code compares it with the
stored `start_date` — an explicitly-null `end_date` makes that comparison
itself raise `TypeError` (HTTP 500) before any write, a supplied date at
or before `start_date` gives 400 — otherwise the mutation loop and
response of `applyRawUpdate` run. -/
def update_policy_raw (db : List StoredPolicy) (pid : String)
    (upd : PolicyUpdateRaw) (now : Nat) : UpdateOutcome × List StoredPolicy :=
  match rawFind db pid with
  | none => (.failed .notFound, db)
  | some policy_data =>
    match upd.end_date with
    | some none => (.serverError, db)
    | some (some e) =>
      if Date.ble e policy_data.start_date then
        (.failed .invalidInput, db)
      else
        applyRawUpdate db policy_data upd now
    | none => applyRawUpdate db policy_data upd now

/-- `delete_policy` (soft delete): 404 when absent, otherwise set
status to "cancelled" and refresh `updated_at`. -/
def delete_policy (db : PolicyDb) (pid : String) (now : Nat) :
    Except ApiError PolicyDb :=
  match validate_policy_exists db pid with
  | .error e => .error e
  | .ok policy_data =>
    let policy_data' := { policy_data with status := "cancelled", updated_at := now }
    .ok (dbSet db policy_data')

/-- `renew_policy`: 404 when absent, 400 when status is not "active",
otherwise extend `end_date` by `renewal_months` calendar months
(`relativedelta`) and refresh `updated_at`. -/
def renew_policy (db : PolicyDb) (pid : String) (renewal_months : Nat)
    (now : Nat) : Except ApiError (Policy × PolicyDb) :=
  match validate_policy_exists db pid with
  | .error e => .error e
  | .ok policy_data =>
    if policy_data.status ≠ "active" then
      .error .invalidInput
    else
      let new_end_date := policy_data.end_date.addMonths renewal_months
      let policy_data' := { policy_data with end_date := new_end_date, updated_at := now }
      .ok (policy_data', dbSet db policy_data')

/-- `create_claim`: 404 when the policy is absent, 400 when its status is
not "active", 400 when `claim_amount > coverage_amount`, otherwise store a
new claim with status "pending". -/
def create_claim (pols : PolicyDb) (claims : ClaimDb) (pid : String)
    (claim_request : ClaimRequest) (genId : String) (now : Nat) :
    Except ApiError (Claim × ClaimDb) :=
  match validate_policy_exists pols pid with
  | .error e => .error e
  | .ok policy_data =>
    if policy_data.status ≠ "active" then
      .error .invalidInput
    else if claim_request.claim_amount > policy_data.coverage_amount then
      .error .invalidInput
    else
      let claim_data : Claim :=
        { claim_id := genId
          policy_id := pid
          claim_amount := claim_request.claim_amount
          status := "pending"
          submitted_at := now
          incident_date := claim_request.incident_date
          description := claim_request.description
          claim_type := claim_request.claim_type }
      .ok (claim_data, claimDbSet claims claim_data)

/-- The body of the `/{policy_id}/summary` response. -/
structure Summary where
  policy : Policy
  total_claims : Nat
  total_claimed_amount : ℚ
  pending_claims : Nat
  approved_claims : Nat
  utilization_rate : ℚ
deriving DecidableEq, Repr

/-- `get_policy_summary`: 404 when the policy is absent; otherwise
aggregate over the claims whose `policy_id` matches. -/
def get_policy_summary (pols : PolicyDb) (claims : ClaimDb) (pid : String) :
    Except ApiError Summary :=
  match validate_policy_exists pols pid with
  | .error e => .error e
  | .ok policy_data =>
    let policy_claims := claims.filter (fun c => c.policy_id == pid)
    let total_claimed_amount := (policy_claims.map (fun c => c.claim_amount)).sum
    .ok
      { policy := policy_data
        total_claims := policy_claims.length
        total_claimed_amount := total_claimed_amount
        pending_claims := (policy_claims.filter (fun c => c.status == "pending")).length
        approved_claims := (policy_claims.filter (fun c => c.status == "approved")).length
        utilization_rate := total_claimed_amount / policy_data.coverage_amount * 100 }

/-- The policy store after a `create_policy` call: unchanged on error. -/
def polsAfterCreate (db : PolicyDb) (r : PolicyCreate) (g : String) (t : Nat) : PolicyDb :=
  match create_policy db r g t with
  | .ok (_, db') => db'
  | .error _ => db

/-- The policy store after a `renew_policy` call: unchanged on error. -/
def polsAfterRenew (db : PolicyDb) (pid : String) (m t : Nat) : PolicyDb :=
  match renew_policy db pid m t with
  | .ok (_, db') => db'
  | .error _ => db

/-- The claim store after a `create_claim` call: unchanged on error. -/
def claimsAfterCreate (pols : PolicyDb) (claims : ClaimDb) (pid : String)
    (r : ClaimRequest) (g : String) (t : Nat) : ClaimDb :=
  match create_claim pols claims pid r g t with
  | .ok (_, cl) => cl
  | .error _ => claims

/-! ### Store lemmas -/

/-- Assigning under a key absent from the dictionary appends the record. -/
theorem dbSet_of_fresh (db : PolicyDb) (p : Policy)
    (h : db.any (fun q => q.id == p.id) = false) : dbSet db p = db ++ [p] := by
  simp only [dbSet, h, Bool.false_eq_true, if_false]

/-- Assigning under a key held by a record with a different id commutes with
the head of the store. -/
theorem dbSet_cons_of_ne (q : Policy) (db : PolicyDb) (p : Policy)
    (hq : (q.id == p.id) = false) : dbSet (q :: db) p = q :: dbSet db p := by
  have hq' : ¬ q.id = p.id := by simpa using hq
  by_cases hb : db.any (fun r => r.id == p.id) = true
  · simp [dbSet, List.any_cons, hq, hb, hq']
  · simp [dbSet, List.any_cons, hq, hb, hq']

/-- After `db[p.id] = p`, looking up `p.id` yields `p`. -/
theorem dbFind_dbSet_self (db : PolicyDb) (p : Policy) :
    dbFind (dbSet db p) p.id = some p := by
  induction db with
  | nil => simp [dbSet, dbFind]
  | cons q db ih =>
    by_cases hq : (q.id == p.id) = true
    · have hq' : q.id = p.id := by simpa using hq
      have hstore : dbSet (q :: db) p
          = p :: db.map (fun r => if r.id == p.id then p else r) := by
        simp [dbSet, List.any_cons, hq, hq']
      rw [hstore]
      simp [dbFind, List.find?_cons]
    · rw [dbSet_cons_of_ne q db p (by simpa using hq)]
      simpa [dbFind, List.find?_cons, hq] using ih

/-- Every record in the store after an assignment is the assigned record or
was already present. -/
theorem mem_dbSet {q : Policy} {db : PolicyDb} {p : Policy}
    (h : q ∈ dbSet db p) : q = p ∨ q ∈ db := by
  unfold dbSet at h
  split at h
  · obtain ⟨r, hr, hrq⟩ := List.mem_map.mp h
    by_cases hc : (r.id == p.id) = true
    · left; rw [if_pos hc] at hrq; exact hrq.symm
    · right; rw [if_neg hc] at hrq; exact hrq ▸ hr
  · rcases List.mem_append.mp h with h | h
    · right; exact h
    · left; simpa using h

/-- The assigned claim is a member of the store after the assignment. -/
theorem mem_claimDbSet_self (claims : ClaimDb) (c : Claim) :
    c ∈ claimDbSet claims c := by
  unfold claimDbSet
  split
  · rename_i hany
    obtain ⟨r, hr, hc⟩ := List.any_eq_true.mp hany
    exact List.mem_map.mpr ⟨r, hr, by simp [hc]⟩
  · simp

/-- A successful lookup returns a member of the store. -/
theorem dbFind_mem {db : PolicyDb} {pid : String} {p : Policy}
    (h : dbFind db pid = some p) : p ∈ db :=
  List.mem_of_find?_eq_some h

/-- A successful lookup returns a record carrying the looked-up id. -/
theorem dbFind_id {db : PolicyDb} {pid : String} {p : Policy}
    (h : dbFind db pid = some p) : p.id = pid := by
  have := List.find?_some h
  simpa using this

/-! ### Handler inversion lemmas -/

/-- `validate_policy_exists` succeeds exactly on a successful lookup. -/
theorem validate_ok_iff {db : PolicyDb} {pid : String} {p : Policy} :
    validate_policy_exists db pid = .ok p ↔ dbFind db pid = some p := by
  unfold validate_policy_exists
  cases h : dbFind db pid <;> simp

/-- A successful `create_policy` returns exactly the record built from the
request, the generated id and the timestamp, and stores it. -/
theorem create_policy_ok_inv {db : PolicyDb} {r : PolicyCreate} {g : String}
    {t : Nat} {p : Policy} {db' : PolicyDb}
    (h : create_policy db r g t = .ok (p, db')) :
    p = { id := g, policy_number := r.policy_number, policy_type := r.policy_type,
          customer_id := r.customer_id, premium_amount := r.premium_amount,
          coverage_amount := r.coverage_amount, start_date := r.start_date,
          end_date := r.end_date, status := r.status, created_at := t,
          updated_at := t } ∧
    db' = dbSet db p := by
  unfold create_policy at h
  split at h
  · exact absurd h (by simp)
  · split at h
    · exact absurd h (by simp)
    · rw [Except.ok.injEq, Prod.mk.injEq] at h
      obtain ⟨h1, h2⟩ := h
      exact ⟨h1.symm, by rw [← h1]; exact h2.symm⟩

/-- A successful `update_policy` found a stored record and overwrote exactly
the supplied fields, refreshing `updated_at`. -/
theorem update_policy_ok_inv {db : PolicyDb} {pid : String} {u : PolicyUpdate}
    {t : Nat} {p' : Policy} {db' : PolicyDb}
    (h : update_policy db pid u t = .ok (p', db')) :
    ∃ p, dbFind db pid = some p ∧
      p' = { p with
             policy_type := u.policy_type.getD p.policy_type
             premium_amount := u.premium_amount.getD p.premium_amount
             coverage_amount := u.coverage_amount.getD p.coverage_amount
             end_date := u.end_date.getD p.end_date
             status := u.status.getD p.status
             updated_at := t } ∧
      db' = dbSet db p' := by
  unfold update_policy at h
  split at h
  · exact absurd h (by simp)
  · rename_i policy_data heq
    split at h
    · exact absurd h (by simp)
    · rw [Except.ok.injEq, Prod.mk.injEq] at h
      obtain ⟨h1, h2⟩ := h
      exact ⟨policy_data, validate_ok_iff.mp heq, h1.symm, by rw [← h1]; exact h2.symm⟩

/-- A successful `delete_policy` found a stored record and stored it back
with status "cancelled". -/
theorem delete_policy_ok_inv {db : PolicyDb} {pid : String} {t : Nat}
    {db' : PolicyDb} (h : delete_policy db pid t = .ok db') :
    ∃ p, dbFind db pid = some p ∧
      db' = dbSet db { p with status := "cancelled", updated_at := t } := by
  unfold delete_policy at h
  split at h
  · exact absurd h (by simp)
  · rename_i policy_data heq
    rw [Except.ok.injEq] at h
    exact ⟨policy_data, validate_ok_iff.mp heq, h.symm⟩

/-- A successful `renew_policy` found an active stored record and stored it
back with the end date advanced by `renewal_months` calendar months. -/
theorem renew_policy_ok_inv {db : PolicyDb} {pid : String} {m t : Nat}
    {p' : Policy} {db' : PolicyDb}
    (h : renew_policy db pid m t = .ok (p', db')) :
    ∃ p, dbFind db pid = some p ∧ p.status = "active" ∧
      p' = { p with end_date := p.end_date.addMonths m, updated_at := t } ∧
      db' = dbSet db p' := by
  unfold renew_policy at h
  split at h
  · exact absurd h (by simp)
  · rename_i policy_data heq
    split at h
    · exact absurd h (by simp)
    · rename_i hactive
      rw [Except.ok.injEq, Prod.mk.injEq] at h
      obtain ⟨h1, h2⟩ := h
      exact ⟨policy_data, validate_ok_iff.mp heq, by simpa using hactive,
        h1.symm, by rw [← h1]; exact h2.symm⟩

/-- A successful `create_claim` found an active stored policy whose coverage
the claimed amount does not exceed, and stored a "pending" claim built from
the request. -/
theorem create_claim_ok_inv {pols : PolicyDb} {claims : ClaimDb} {pid : String}
    {r : ClaimRequest} {g : String} {t : Nat} {c : Claim} {cl : ClaimDb}
    (h : create_claim pols claims pid r g t = .ok (c, cl)) :
    ∃ p, dbFind pols pid = some p ∧ p.status = "active" ∧
      ¬ r.claim_amount > p.coverage_amount ∧
      c = { claim_id := g, policy_id := pid, claim_amount := r.claim_amount,
            status := "pending", submitted_at := t,
            incident_date := r.incident_date, description := r.description,
            claim_type := r.claim_type } ∧
      cl = claimDbSet claims c := by
  unfold create_claim at h
  split at h
  · exact absurd h (by simp)
  · rename_i policy_data heq
    split at h
    · exact absurd h (by simp)
    · rename_i hactive
      split at h
      · exact absurd h (by simp)
      · rename_i hcov
        rw [Except.ok.injEq, Prod.mk.injEq] at h
        obtain ⟨h1, h2⟩ := h
        exact ⟨policy_data, validate_ok_iff.mp heq, by simpa using hactive,
          hcov, h1.symm, by rw [← h1]; exact h2.symm⟩

/-! ### Concrete fixtures used by witnesses and counterexamples -/

/-- A boundary-valid creation request (status left at its pydantic default). -/
def samplePolicyCreate : PolicyCreate :=
  { policy_number := "P-1", policy_type := "auto", customer_id := "CUST-1"
    premium_amount := 100, coverage_amount := 1000
    start_date := ⟨2024, 1, 1⟩, end_date := ⟨2024, 12, 31⟩ }

/-- The record `create_policy` stores for `samplePolicyCreate` with generated
id "POL-1" at tick 0. -/
def samplePolicy : Policy :=
  { id := "POL-1", policy_number := "P-1", policy_type := "auto"
    customer_id := "CUST-1", premium_amount := 100, coverage_amount := 1000
    start_date := ⟨2024, 1, 1⟩, end_date := ⟨2024, 12, 31⟩, status := "active"
    created_at := 0, updated_at := 0 }

/-- The same record after the soft delete. -/
def cancelledPolicy : Policy :=
  { samplePolicy with status := "cancelled" }

/-- A creation request with its dates swapped. -/
def badDatesReq : PolicyCreate :=
  { samplePolicyCreate with start_date := ⟨2024, 12, 31⟩, end_date := ⟨2024, 1, 1⟩ }

/-- A creation request that overrides the `status` default. -/
def statusOverrideReq : PolicyCreate :=
  { samplePolicyCreate with status := "cancelled" }

/-- A claim request against "POL-1" for a given amount. -/
def sampleClaimReq (amt : ℚ) : ClaimRequest :=
  { policy_id := "POL-1", claim_amount := amt, incident_date := ⟨2024, 6, 1⟩
    description := "collision damage", claim_type := "auto" }

/-! ### C4 -/

/-- C4: a policy-creation request with `start_date >= end_date` fails with
`InvalidInput` (HTTP 400) and leaves the policy store completely
unchanged. -/
theorem create_policy_invalid_dates (db : PolicyDb) (r : PolicyCreate)
    (g : String) (t : Nat) (h : Date.bge r.start_date r.end_date = true) :
    create_policy db r g t = .error .invalidInput ∧
    polsAfterCreate db r g t = db := by
  have hc : create_policy db r g t = .error .invalidInput := by
    unfold create_policy
    rw [if_pos h]
  exact ⟨hc, by unfold polsAfterCreate; rw [hc]⟩

/-- Witness for C4 at a concrete swapped-dates request against the empty
store. -/
theorem create_policy_invalid_dates_witness :
    Date.bge badDatesReq.start_date badDatesReq.end_date = true ∧
    create_policy [] badDatesReq "POL-1" 0 = .error .invalidInput ∧
    polsAfterCreate [] badDatesReq "POL-1" 0 = [] :=
  ⟨rfl, (create_policy_invalid_dates [] badDatesReq "POL-1" 0 rfl).1,
    (create_policy_invalid_dates [] badDatesReq "POL-1" 0 rfl).2⟩

/-! ### C6 -/

/-- C6: renewing a stored policy whose status is not "active" fails with
`InvalidInput` (HTTP 400) and leaves the policy store — in particular the
policy's `end_date` — unchanged, for every months value. -/
theorem renew_policy_not_active (db : PolicyDb) (pid : String) (m t : Nat)
    (p : Policy) (hfind : dbFind db pid = some p)
    (hact : p.status ≠ "active") :
    renew_policy db pid m t = .error .invalidInput ∧
    polsAfterRenew db pid m t = db := by
  have hv := validate_ok_iff.mpr hfind
  have hc : renew_policy db pid m t = .error .invalidInput := by
    unfold renew_policy
    rw [hv]
    simp [hact]
  exact ⟨hc, by unfold polsAfterRenew; rw [hc]⟩

/-- Witness for C6 on a concrete cancelled policy. -/
theorem renew_policy_not_active_witness :
    cancelledPolicy.status ≠ "active" ∧
    renew_policy [cancelledPolicy] "POL-1" 12 1 = .error .invalidInput ∧
    polsAfterRenew [cancelledPolicy] "POL-1" 12 1 = [cancelledPolicy] :=
  ⟨by decide,
    (renew_policy_not_active [cancelledPolicy] "POL-1" 12 1 cancelledPolicy rfl
      (by decide)).1,
    (renew_policy_not_active [cancelledPolicy] "POL-1" 12 1 cancelledPolicy rfl
      (by decide)).2⟩

/-! ### C3 -/

/-- C3 counterexample: a creation request that supplies status "cancelled"
succeeds, and the record persisted is not "active" — `create_policy` copies
the request's status instead of forcing "active". -/
theorem create_policy_status_cex :
    create_policy [] statusOverrideReq "POL-1" 0
      = .ok (cancelledPolicy, [cancelledPolicy]) ∧
    cancelledPolicy.status ≠ "active" :=
  ⟨rfl, by decide⟩

/-- C3 (amended): the record persisted (and returned) by a successful policy
creation has status equal to the request's `status` field — which pydantic
defaults to "active" when the request omits it — and is stored under the
generated id. -/
theorem create_policy_status_follows_request (db : PolicyDb)
    (r : PolicyCreate) (g : String) (t : Nat) (p : Policy) (db' : PolicyDb)
    (h : create_policy db r g t = .ok (p, db')) :
    p.status = r.status ∧ dbFind db' p.id = some p := by
  obtain ⟨hp, hdb'⟩ := create_policy_ok_inv h
  refine ⟨by rw [hp], ?_⟩
  rw [hdb']
  exact dbFind_dbSet_self db p

/-- Witness for the amended C3 at a concrete default-status request. -/
theorem create_policy_status_follows_request_witness :
    samplePolicy.status = samplePolicyCreate.status ∧
    dbFind [samplePolicy] samplePolicy.id = some samplePolicy :=
  create_policy_status_follows_request [] samplePolicyCreate "POL-1" 0
    samplePolicy [samplePolicy] rfl

/-- A policy ending on a non-leap-year February 28. -/
def febPolicy : Policy :=
  { samplePolicy with
    id := "POL-2"
    policy_number := "P-2"
    start_date := ⟨2022, 3, 1⟩
    end_date := ⟨2023, 2, 28⟩ }

/-- The claim record stored for `sampleClaimReq 500` against "POL-1" with
generated id "CLM-1" at tick 0. -/
def sampleClaim : Claim :=
  { claim_id := "CLM-1", policy_id := "POL-1", claim_amount := 500
    status := "pending", submitted_at := 0, incident_date := ⟨2024, 6, 1⟩
    description := "collision damage", claim_type := "auto" }

/-! ### C1 -/

/-- C1 counterexample: against a stored policy whose status is "cancelled",
a claim for exactly the coverage amount does not succeed — it fails with
`InvalidInput` on the active-status gate — refuting the unconditional
boundary-inclusive success. -/
theorem create_claim_boundary_cex :
    dbFind [cancelledPolicy] "POL-1" = some cancelledPolicy ∧
    (sampleClaimReq 1000).claim_amount = cancelledPolicy.coverage_amount ∧
    create_claim [cancelledPolicy] [] "POL-1" (sampleClaimReq 1000) "CLM-1" 0
      = .error .invalidInput :=
  ⟨rfl, rfl, rfl⟩

/-- C1 (amended): for every stored policy, a claim amount strictly above the
coverage amount is rejected with `InvalidInput` (HTTP 400) and no claim is
stored; and when the stored policy's status is "active", a claim amount
equal to the coverage amount succeeds (boundary inclusive). -/
theorem create_claim_coverage_boundary (pols : PolicyDb) (claims : ClaimDb)
    (pid : String) (r : ClaimRequest) (g : String) (t : Nat) (p : Policy)
    (hfind : dbFind pols pid = some p) :
    (r.claim_amount > p.coverage_amount →
      create_claim pols claims pid r g t = .error .invalidInput ∧
      claimsAfterCreate pols claims pid r g t = claims) ∧
    (p.status = "active" → r.claim_amount = p.coverage_amount →
      ∃ c cl, create_claim pols claims pid r g t = .ok (c, cl)) := by
  have hv := validate_ok_iff.mpr hfind
  constructor
  · intro hgt
    have hc : create_claim pols claims pid r g t = .error .invalidInput := by
      unfold create_claim
      rw [hv]
      by_cases hact : p.status = "active"
      · simp [hact, hgt]
      · simp [hact]
    exact ⟨hc, by unfold claimsAfterCreate; rw [hc]⟩
  · intro hact heq
    have hc : create_claim pols claims pid r g t
        = .ok ({ claim_id := g, policy_id := pid,
                 claim_amount := r.claim_amount, status := "pending",
                 submitted_at := t, incident_date := r.incident_date,
                 description := r.description, claim_type := r.claim_type },
               claimDbSet claims
                 { claim_id := g, policy_id := pid,
                   claim_amount := r.claim_amount, status := "pending",
                   submitted_at := t, incident_date := r.incident_date,
                   description := r.description,
                   claim_type := r.claim_type }) := by
      unfold create_claim
      rw [hv]
      simp [hact, heq]
    exact ⟨_, _, hc⟩

/-- Witness for the amended C1: an over-coverage claim fails and stores
nothing; an at-coverage claim against the active policy succeeds. -/
theorem create_claim_coverage_boundary_witness :
    (create_claim [samplePolicy] [] "POL-1" (sampleClaimReq 2000) "CLM-1" 0
        = .error .invalidInput ∧
      claimsAfterCreate [samplePolicy] [] "POL-1" (sampleClaimReq 2000)
        "CLM-1" 0 = []) ∧
    (∃ c cl, create_claim [samplePolicy] [] "POL-1" (sampleClaimReq 1000)
        "CLM-1" 0 = .ok (c, cl)) :=
  ⟨(create_claim_coverage_boundary [samplePolicy] [] "POL-1"
      (sampleClaimReq 2000) "CLM-1" 0 samplePolicy rfl).1 (by decide),
   (create_claim_coverage_boundary [samplePolicy] [] "POL-1"
      (sampleClaimReq 1000) "CLM-1" 0 samplePolicy rfl).2 rfl rfl⟩

/-! ### C2 -/

/-- C2: claim creation fails with `NotFound` (404) when the policy is
absent; fails with `InvalidInput` (400) for every claim amount, storing
nothing, when the stored policy is not "active"; and every successful claim
creation happened against a stored active policy and stored the claim with
status "pending". -/
theorem create_claim_policy_gating (pols : PolicyDb) (claims : ClaimDb)
    (pid : String) (r : ClaimRequest) (g : String) (t : Nat) :
    (dbFind pols pid = none →
      create_claim pols claims pid r g t = .error .notFound) ∧
    (∀ p, dbFind pols pid = some p → p.status ≠ "active" →
      create_claim pols claims pid r g t = .error .invalidInput ∧
      claimsAfterCreate pols claims pid r g t = claims) ∧
    (∀ c cl, create_claim pols claims pid r g t = .ok (c, cl) →
      ∃ p, dbFind pols pid = some p ∧ p.status = "active" ∧
        c.status = "pending" ∧ c ∈ cl) := by
  refine ⟨?_, ?_, ?_⟩
  · intro hnone
    unfold create_claim validate_policy_exists
    rw [hnone]
  · intro p hp hact
    have hv := validate_ok_iff.mpr hp
    have hc : create_claim pols claims pid r g t = .error .invalidInput := by
      unfold create_claim
      rw [hv]
      simp [hact]
    exact ⟨hc, by unfold claimsAfterCreate; rw [hc]⟩
  · intro c cl hok
    obtain ⟨p, hfind, hact, _, hc, hcl⟩ := create_claim_ok_inv hok
    refine ⟨p, hfind, hact, by rw [hc], ?_⟩
    rw [hcl]
    exact mem_claimDbSet_self claims c

/-- Witness for C2 on the empty store, a cancelled policy and the active
policy. -/
theorem create_claim_policy_gating_witness :
    create_claim [] [] "POL-1" (sampleClaimReq 500) "CLM-1" 0
      = .error .notFound ∧
    (create_claim [cancelledPolicy] [] "POL-1" (sampleClaimReq 500) "CLM-1" 0
        = .error .invalidInput ∧
      claimsAfterCreate [cancelledPolicy] [] "POL-1" (sampleClaimReq 500)
        "CLM-1" 0 = []) ∧
    (∃ p, dbFind [samplePolicy] "POL-1" = some p ∧ p.status = "active" ∧
      sampleClaim.status = "pending" ∧ sampleClaim ∈ [sampleClaim]) :=
  ⟨(create_claim_policy_gating [] [] "POL-1" (sampleClaimReq 500)
      "CLM-1" 0).1 rfl,
   (create_claim_policy_gating [cancelledPolicy] [] "POL-1"
      (sampleClaimReq 500) "CLM-1" 0).2.1 cancelledPolicy rfl (by decide),
   (create_claim_policy_gating [samplePolicy] [] "POL-1" (sampleClaimReq 500)
      "CLM-1" 0).2.2 sampleClaim [sampleClaim] rfl⟩

/-! ### C5 -/

/-- C5: renewing a stored active policy by `months` in [1, 60] succeeds,
sets the policy's end date to the current end date plus `months` calendar
months (`relativedelta` arithmetic, day clamped to the target month), and
persists the new end date in the store. -/
theorem renew_policy_active (db : PolicyDb) (pid : String) (m t : Nat)
    (p : Policy) (hfind : dbFind db pid = some p)
    (hact : p.status = "active") (_hm1 : 1 ≤ m) (_hm2 : m ≤ 60) :
    ∃ p' db', renew_policy db pid m t = .ok (p', db') ∧
      p'.end_date = p.end_date.addMonths m ∧
      dbFind db' pid = some p' := by
  have hv := validate_ok_iff.mpr hfind
  have hok : renew_policy db pid m t
      = .ok ({ p with end_date := p.end_date.addMonths m, updated_at := t },
             dbSet db
               { p with end_date := p.end_date.addMonths m, updated_at := t }) := by
    unfold renew_policy
    rw [hv]
    simp [hact]
  refine ⟨_, _, hok, rfl, ?_⟩
  have hid : ({ p with end_date := p.end_date.addMonths m, updated_at := t } : Policy).id = pid := by
    simpa using dbFind_id hfind
  rw [← hid]
  exact dbFind_dbSet_self db _

/-- Witness for C5: a year-end renewal lands on the next year's same day,
and a February 28 renewal lands on February 28 of the leap year, not
February 29. -/
theorem renew_policy_active_witness :
    (∃ p' db', renew_policy [samplePolicy] "POL-1" 12 1 = .ok (p', db') ∧
      p'.end_date = samplePolicy.end_date.addMonths 12 ∧
      dbFind db' "POL-1" = some p') ∧
    samplePolicy.end_date.addMonths 12 = ⟨2025, 12, 31⟩ ∧
    (∃ p' db', renew_policy [febPolicy] "POL-2" 12 1 = .ok (p', db') ∧
      p'.end_date = febPolicy.end_date.addMonths 12 ∧
      dbFind db' "POL-2" = some p') ∧
    febPolicy.end_date.addMonths 12 = ⟨2024, 2, 28⟩ :=
  ⟨renew_policy_active [samplePolicy] "POL-1" 12 1 samplePolicy rfl rfl
      (by decide) (by decide),
   by decide,
   renew_policy_active [febPolicy] "POL-2" 12 1 febPolicy rfl rfl
      (by decide) (by decide),
   by decide⟩

/-! ### C7 -/

/-- A second creation request carrying the same policy number "P-1". -/
def dupNumberReq : PolicyCreate :=
  { samplePolicyCreate with customer_id := "CUST-2", premium_amount := 150 }

/-- The `policy_data` record `create_policy` builds from a request, a
generated id and a timestamp. -/
def mkPolicyData (r : PolicyCreate) (g : String) (t : Nat) : Policy :=
  { id := g, policy_number := r.policy_number, policy_type := r.policy_type
    customer_id := r.customer_id, premium_amount := r.premium_amount
    coverage_amount := r.coverage_amount, start_date := r.start_date
    end_date := r.end_date, status := r.status, created_at := t
    updated_at := t }

/-- C7: starting from a store holding no policy with the shared
policy_number (and a fresh generated id), running two date-valid creation
requests with that number one after the other makes exactly the first
succeed, makes the second fail with `Conflict` (HTTP 409), and leaves
exactly one policy with that number in the store.  `r1` and `r2` are
arbitrary, so both orders are covered. -/
theorem create_policy_duplicate_number (db : PolicyDb) (r1 r2 : PolicyCreate)
    (g1 g2 : String) (t1 t2 : Nat)
    (hnum : r2.policy_number = r1.policy_number)
    (hd1 : Date.bge r1.start_date r1.end_date = false)
    (hd2 : Date.bge r2.start_date r2.end_date = false)
    (hfresh : ∀ q ∈ db, (q.policy_number == r1.policy_number) = false)
    (hid : ∀ q ∈ db, (q.id == g1) = false) :
    ∃ p1, create_policy db r1 g1 t1 = .ok (p1, db ++ [p1]) ∧
      p1.policy_number = r1.policy_number ∧
      create_policy (db ++ [p1]) r2 g2 t2 = .error .conflict ∧
      ((db ++ [p1]).filter
        (fun q => q.policy_number == r1.policy_number)).length = 1 := by
  refine ⟨mkPolicyData r1 g1 t1, ?_, rfl, ?_, ?_⟩
  · have hany : db.any (fun q => q.policy_number == r1.policy_number) = false := by
      rw [List.any_eq_false]
      intro q hq
      simp [hfresh q hq]
    have hanyid : db.any (fun q => q.id == (mkPolicyData r1 g1 t1).id) = false := by
      rw [List.any_eq_false]
      intro q hq
      simp [mkPolicyData, hid q hq]
    unfold create_policy
    rw [if_neg (by simp [hd1]), if_neg (by simp [hany])]
    rw [Except.ok.injEq, Prod.mk.injEq]
    exact ⟨rfl, dbSet_of_fresh db _ hanyid⟩
  · have hmem : ((db ++ [mkPolicyData r1 g1 t1]).any
        (fun q => q.policy_number == r2.policy_number)) = true := by
      simp [List.any_append, mkPolicyData, hnum]
    unfold create_policy
    rw [if_neg (by simp [hd2]), if_pos hmem]
  · rw [List.filter_append]
    have h1 : db.filter (fun q => q.policy_number == r1.policy_number) = [] :=
      List.filter_eq_nil_iff.mpr (fun q hq => by simp [hfresh q hq])
    rw [h1]
    simp [mkPolicyData]

/-- Witness for C7: the pair `samplePolicyCreate` / `dupNumberReq` (both
numbered "P-1") against the empty store. -/
theorem create_policy_duplicate_number_witness :
    ∃ p1 : Policy,
      create_policy [] samplePolicyCreate "POL-1" 0 = .ok (p1, [] ++ [p1]) ∧
      p1.policy_number = samplePolicyCreate.policy_number ∧
      create_policy ([] ++ [p1]) dupNumberReq "POL-2" 1 = .error .conflict ∧
      (([] ++ [p1] : PolicyDb).filter
        (fun q => q.policy_number == samplePolicyCreate.policy_number)).length = 1 :=
  create_policy_duplicate_number [] samplePolicyCreate dupNumberReq "POL-1"
    "POL-2" 0 1 rfl rfl rfl (by simp) (by simp)

/-! ### C8 -/

/-- The summary the endpoint returns for "POL-1" with no claims stored. -/
def sampleSummary : Summary :=
  { policy := samplePolicy, total_claims := 0, total_claimed_amount := 0
    pending_claims := 0, approved_claims := 0, utilization_rate := 0 }

/-- The update request whose JSON body supplies only `coverage_amount`,
explicitly set to null. -/
def nullCoverageUpdate : PolicyUpdateRaw :=
  { coverage_amount := some none }

/-- The dict entry left in `policies_db` after that update: coverage is
`None`, `updated_at` refreshed, everything else as stored by the create. -/
def corruptedStoredPolicy : StoredPolicy :=
  { samplePolicy.toStored with coverage_amount := none, updated_at := 5 }

/-- C8: the claimed invariant fails in the code.  The update request
setting `coverage_amount` to an explicit JSON null passes pydantic
validation (`gt=0` is skipped for `None`), survives
`dict(exclude_unset=True)`, and the handler writes `None` into the stored
record and only then raises HTTP 500 building `PolicyResponse` — so a
store state reachable through a valid create followed by this update holds
a policy without positive coverage, and the `utilization_rate` division of
`get_policy_summary` is not safe in that state. -/
theorem update_policy_null_coverage_bug :
    PolicyUpdateRaw.Valid nullCoverageUpdate ∧
    create_policy [] samplePolicyCreate "POL-1" 0
      = .ok (samplePolicy, [samplePolicy]) ∧
    List.map Policy.toStored [samplePolicy] = [samplePolicy.toStored] ∧
    update_policy_raw [samplePolicy.toStored] "POL-1" nullCoverageUpdate 5
      = (.serverError, [corruptedStoredPolicy]) ∧
    rawFind [corruptedStoredPolicy] "POL-1" = some corruptedStoredPolicy ∧
    corruptedStoredPolicy.coverage_amount = none :=
  ⟨⟨fun x h => by simp [nullCoverageUpdate] at h,
    fun x h => by simp [nullCoverageUpdate] at h⟩,
   rfl, rfl, rfl, rfl, rfl⟩

/-! ### C9 -/

/-- An update request touching only fields the update schema admits. -/
def sampleUpdate : PolicyUpdate :=
  { coverage_amount := some 2000, status := some "expired" }

/-- The record stored after applying `sampleUpdate` to `samplePolicy` at
tick 5. -/
def updatedPolicy : Policy :=
  { samplePolicy with
    coverage_amount := 2000
    status := "expired"
    updated_at := 5 }

/-- C9: a successful policy update never changes the stored record's id,
policy_number, customer_id, start_date or created_at (the update schema
admits only policy_type, premium_amount, coverage_amount, end_date and
status). -/
theorem update_policy_frame (db : PolicyDb) (pid : String) (u : PolicyUpdate)
    (t : Nat) (p p' : Policy) (db' : PolicyDb)
    (hfind : dbFind db pid = some p)
    (h : update_policy db pid u t = .ok (p', db')) :
    p'.id = p.id ∧ p'.policy_number = p.policy_number ∧
    p'.customer_id = p.customer_id ∧ p'.start_date = p.start_date ∧
    p'.created_at = p.created_at := by
  obtain ⟨q, hq, hp', _⟩ := update_policy_ok_inv h
  rw [hfind] at hq
  obtain rfl : p = q := Option.some.inj hq
  subst hp'
  exact ⟨rfl, rfl, rfl, rfl, rfl⟩

/-- Witness for C9: updating coverage and status of the sample policy
leaves the five frame fields intact. -/
theorem update_policy_frame_witness :
    updatedPolicy.id = samplePolicy.id ∧
    updatedPolicy.policy_number = samplePolicy.policy_number ∧
    updatedPolicy.customer_id = samplePolicy.customer_id ∧
    updatedPolicy.start_date = samplePolicy.start_date ∧
    updatedPolicy.created_at = samplePolicy.created_at :=
  update_policy_frame [samplePolicy] "POL-1" sampleUpdate 5 samplePolicy
    updatedPolicy [updatedPolicy] rfl rfl

/-! ### C10 -/

/-- A claim against "POL-1" with status "rejected". -/
def rejectedClaim : Claim :=
  { sampleClaim with
    claim_id := "CLM-2"
    claim_amount := 200
    status := "rejected" }

/-- The summary for "POL-1" once only `rejectedClaim` is stored. -/
def sampleSummaryRej : Summary :=
  { policy := samplePolicy, total_claims := 1, total_claimed_amount := 200
    pending_claims := 0, approved_claims := 0, utilization_rate := 20 }

/-- C10: the summary aggregates every stored claim of the policy regardless
of status — appending a claim with status "rejected" increments
total_claims and adds its amount to total_claimed_amount (and so to the
utilization numerator), while only the pending and approved counters are
status-filtered and stay unchanged. -/
theorem summary_counts_all_statuses (pols : PolicyDb) (claims : ClaimDb)
    (pid : String) (c : Claim) (s s' : Summary)
    (hcpid : c.policy_id = pid) (hstatus : c.status = "rejected")
    (h1 : get_policy_summary pols claims pid = .ok s)
    (h2 : get_policy_summary pols (claims ++ [c]) pid = .ok s') :
    s'.policy = s.policy ∧
    s'.total_claims = s.total_claims + 1 ∧
    s'.total_claimed_amount = s.total_claimed_amount + c.claim_amount ∧
    s'.pending_claims = s.pending_claims ∧
    s'.approved_claims = s.approved_claims ∧
    s'.utilization_rate
      = (s.total_claimed_amount + c.claim_amount)
          / s.policy.coverage_amount * 100 := by
  unfold get_policy_summary at h1 h2
  cases hv : validate_policy_exists pols pid with
  | error e =>
    rw [hv] at h1
    exact absurd h1 (by simp)
  | ok policy_data =>
    rw [hv] at h1 h2
    rw [Except.ok.injEq] at h1 h2
    subst h1
    subst h2
    refine ⟨rfl, ?_, ?_, ?_, ?_, ?_⟩ <;>
      simp [List.filter_append, List.map_append, List.sum_append, hcpid,
        hstatus]

/-- Witness for C10: a single rejected claim of 200 against coverage 1000
raises the utilization rate to 20. -/
theorem summary_counts_all_statuses_witness :
    sampleSummaryRej.policy = sampleSummary.policy ∧
    sampleSummaryRej.total_claims = sampleSummary.total_claims + 1 ∧
    sampleSummaryRej.total_claimed_amount
      = sampleSummary.total_claimed_amount + rejectedClaim.claim_amount ∧
    sampleSummaryRej.pending_claims = sampleSummary.pending_claims ∧
    sampleSummaryRej.approved_claims = sampleSummary.approved_claims ∧
    sampleSummaryRej.utilization_rate
      = (sampleSummary.total_claimed_amount + rejectedClaim.claim_amount)
          / sampleSummary.policy.coverage_amount * 100 :=
  summary_counts_all_statuses [samplePolicy] [] "POL-1" rejectedClaim
    sampleSummary sampleSummaryRej rfl rfl
    (by simp [get_policy_summary, validate_policy_exists, dbFind,
          samplePolicy, sampleSummary])
    (by simp [get_policy_summary, validate_policy_exists, dbFind,
          samplePolicy, sampleSummaryRej, rejectedClaim, sampleClaim]
        norm_num)

end InsuranceApp
